import Mathlib

/-!
Verification of the Guster gesture daemon (src/Guster-daemon.py) against its
design specification.

Modelling conventions.  Python floats are modelled as rationals; every
comparison, absolute value and sum appearing in the claims is exact at the
inputs involved.  The daemon is single threaded: the one reader loop performs
every collector call, so the non-reentrant threading.Lock is modelled by
making a call that would re-acquire the already-held lock return none (in
Python such a call blocks forever).  Input lines are modelled as already
classified by the three regexes, with the two numeric capture groups of the
update regex kept as the raw captured strings.
-/

/-- Direction values produced by determine_direction (the source uses the
strings "left", "right", "up", "down"). -/
inductive Direction where
  | left
  | right
  | up
  | down
deriving DecidableEq

/-- The string the source uses for each direction when building the lookup
key. -/
def Direction.str : Direction → String
  | Direction.left => "left"
  | Direction.right => "right"
  | Direction.up => "up"
  | Direction.down => "down"

/-- The threshold dict of the config: px_min, and the axis-dominance ratio
stored under the config key axis_ratio (field renamed here to axisRatioVal). -/
structure Threshold where
  px_min : ℚ
  axisRatioVal : ℚ
deriving DecidableEq

/-- determine_direction from the source, with ax = abs dx and ay = abs dy
inlined; the Python comparison `ax >= ay * ratio` is written
`ay * ratio ≤ ax`, and `dx > 0` is written `0 < dx`. -/
def determine_direction (dx dy : ℚ) (threshold : Threshold) : Option Direction :=
  if max |dx| |dy| < threshold.px_min then
    none
  else if |dy| * threshold.axisRatioVal ≤ |dx| then
    some (if 0 < dx then Direction.right else Direction.left)
  else if |dx| * threshold.axisRatioVal ≤ |dy| then
    some (if 0 < dy then Direction.down else Direction.up)
  else
    none

/-- The mutable state of GestureCollector: active flag, finger count, the
two running totals, and last_time (timestamps are opaque rationals). -/
structure GestureCollector where
  active : Bool
  fingers : Nat
  total_dx : ℚ
  total_dy : ℚ
  last_time : Option ℚ
deriving DecidableEq

/-- State established by GestureCollector.reset: everything cleared. -/
def resetState : GestureCollector := ⟨false, 0, 0, 0, none⟩

/-- A freshly constructed collector: the constructor calls reset. -/
def initCollector : GestureCollector := resetState

/-- GestureCollector.begin: unconditionally activates, stores the finger
count, zeroes both totals and stamps last_time with the current time t. -/
def GestureCollector.begin (_c : GestureCollector) (fingers : Nat) (t : ℚ) :
    GestureCollector :=
  ⟨true, fingers, 0, 0, some t⟩

/-- GestureCollector.update: a no-op when inactive, otherwise adds the
deltas into the totals and refreshes last_time. -/
def GestureCollector.update (c : GestureCollector) (dx dy : ℚ) (t : ℚ) :
    GestureCollector :=
  if c.active then ⟨true, c.fingers, c.total_dx + dx, c.total_dy + dy, some t⟩
  else c

/-- GestureCollector.end: the body runs holding self.lock.  When inactive it
returns None at once, state unchanged.  When active it calls self.reset,
which re-acquires the same non-reentrant threading.Lock while it is still
held, so the call blocks forever and never returns: the outer none models
that blocked call. -/
def GestureCollector.«end» (c : GestureCollector) (fingers : Nat) :
    Option (Option (Nat × ℚ × ℚ) × GestureCollector) :=
  if c.active then none
  else some (none, c)

/-- The continuation of the end body past the blocking reset call: the
snapshot (fingers, total_dx, total_dy) that end computes and would return,
and the reset state it would leave, were the lock reentrant. -/
def GestureCollector.endUnlocked (c : GestureCollector) (fingers : Nat) :
    Option (Nat × ℚ × ℚ) × GestureCollector :=
  if c.active then (some (fingers, c.total_dx, c.total_dy), resetState)
  else (none, c)

/-- Numeric value of a list of decimal digit characters. -/
def natOfDigits (l : List Char) : Nat :=
  l.foldl (fun a c => 10 * a + (c.toNat - 48)) 0

/-- Unsigned part of Python float() restricted to the character class the
update regex captures (digits, minus, dot): digits, optionally followed by
one dot and further digits, with at least one digit overall.  none exactly
when float() raises ValueError on such input. -/
def parseUnsignedFloat (l : List Char) : Option ℚ :=
  match l.dropWhile Char.isDigit with
  | [] =>
      if l.isEmpty then none else some (natOfDigits l)
  | '.' :: frac =>
      if frac.all Char.isDigit && !((l.takeWhile Char.isDigit).isEmpty && frac.isEmpty) then
        some ((natOfDigits (l.takeWhile Char.isDigit) : ℚ) +
          (natOfDigits frac : ℚ) / ((10 : ℚ) ^ frac.length))
      else none
  | _ => none

/-- Python float() on a string captured by the update regex: an optional
leading minus sign, then an unsigned decimal literal. -/
def pyFloat (s : String) : Option ℚ :=
  match s.toList with
  | '-' :: rest => (parseUnsignedFloat rest).map (fun q => -q)
  | l => parseUnsignedFloat l

/-- Character class of a string the update regex can capture as one of its
two delta groups. -/
def isDeltaToken (s : String) : Bool :=
  !s.isEmpty && s.toList.all (fun c => c.isDigit || c == '-' || c == '.')

/-- Observable effects of one loop iteration: a process spawn by
subprocess.Popen, or the informational prints the daemon emits. -/
inductive Ev where
  | spawned (cmd : String)
  | printedWould (cmd : String)
  | printedTooSmall (f : Nat)
  | printedDetected (key : String)
  | printedNoMapping (key : String)
deriving DecidableEq

/-- execute_action: an empty command returns at once; dry_run only prints
what would run; otherwise Popen spawns the command (the spawn is the one
invocation of the mapped command). -/
def execute_action (command : String) (dry_run : Bool) : List Ev :=
  if command = "" then []
  else if dry_run then [Ev.printedWould command]
  else [Ev.spawned command]

/-- The configuration the run loop reads: the threshold dict and the
gestures mapping (an association list with unique keys, as a YAML dict). -/
structure Config where
  threshold : Threshold
  gestures : List (String × String)
deriving DecidableEq

/-- The dispatch tail of the run_daemon loop body, given a finalized
gesture (f, dx, dy): classify, and on a none direction print the too-small
notice; otherwise build the key, print the detected notice, and test
`if cmd` — which is false both for a missing key and for a key mapped to
the empty string — spawning via execute_action only on a non-empty mapped
command. -/
def dispatchGesture (cfg : Config) (dry_run : Bool) (f : Nat) (dx dy : ℚ) : List Ev :=
  match determine_direction dx dy cfg.threshold with
  | none => [Ev.printedTooSmall f]
  | some dir =>
      let key := toString f ++ "_" ++ dir.str
      Ev.printedDetected key ::
        (match List.lookup key cfg.gestures with
          | some cmd => if cmd = "" then [Ev.printedNoMapping key] else execute_action cmd dry_run
          | none => [Ev.printedNoMapping key])

/-- One input line as classified by the three regexes.  The begin and end
captures are digit strings, so int() cannot fail and they are carried as
naturals; the two update captures are carried as the raw captured strings,
still to be converted by float(). -/
inductive Line where
  | swipeBegin (fingers : Nat)
  | swipeUpdate (g1 g2 : String)
  | swipeEnd (fingers : Nat)
  | noMatch
deriving DecidableEq

/-- Outcome of one iteration of the read loop body: a new collector state
with the effects emitted, an exception escaping the iteration, or a
collector call blocked on the lock. -/
inductive LineOutcome where
  | ok (c : GestureCollector) (evs : List Ev)
  | raised
  | blocked
deriving DecidableEq

/-- Body of the for loop in run_daemon on one line.  float() on a malformed
captured field raises ValueError, which no handler inside the loop catches;
end on an active session blocks on the lock. -/
def processLine (cfg : Config) (dry_run : Bool) (t : ℚ) (c : GestureCollector) :
    Line → LineOutcome
  | Line.swipeBegin n => LineOutcome.ok (c.begin n t) []
  | Line.swipeUpdate g1 g2 =>
      match pyFloat g1 with
      | none => LineOutcome.raised
      | some dx =>
          match pyFloat g2 with
          | none => LineOutcome.raised
          | some dy => LineOutcome.ok (c.update dx dy t) []
  | Line.swipeEnd n =>
      match GestureCollector.«end» c n with
      | none => LineOutcome.blocked
      | some (none, c2) => LineOutcome.ok c2 []
      | some (some (f, dx, dy), c2) => LineOutcome.ok c2 (dispatchGesture cfg dry_run f dx dy)
  | Line.noMatch => LineOutcome.ok c []

/-- How a whole run of the read loop ends: the stream was consumed, an
exception reached the outer handler (which terminates the producer and ends
the run), or a collector call blocked forever. -/
inductive RunOutcome where
  | finished
  | errored
  | hung
deriving DecidableEq

/-- The read loop of run_daemon over a finite prefix of the stream: lines
are processed in order; an exception aborts the loop at its line, leaving
the remaining lines unprocessed. -/
def runLoop (cfg : Config) (dry_run : Bool) (t : ℚ) :
    GestureCollector → List Line → GestureCollector × List Ev × RunOutcome
  | c, [] => (c, [], RunOutcome.finished)
  | c, l :: ls =>
      match processLine cfg dry_run t c l with
      | LineOutcome.ok c2 evs =>
          let r := runLoop cfg dry_run t c2 ls
          (r.1, evs ++ r.2.1, r.2.2)
      | LineOutcome.raised => (c, [], RunOutcome.errored)
      | LineOutcome.blocked => (c, [], RunOutcome.hung)

/-- C5: any displacement whose larger axis magnitude is below px_min
classifies as none, whatever the axis-dominance ratio. -/
theorem determine_direction_too_small (dx dy : ℚ) (thr : Threshold)
    (h : max |dx| |dy| < thr.px_min) :
    determine_direction dx dy thr = none := by
  unfold determine_direction
  rw [if_pos h]

/-- Witness for C5 at the displacement (10, -20) with threshold (50, 3/2). -/
theorem determine_direction_too_small_witness :
    determine_direction 10 (-20) ⟨50, 3/2⟩ = none :=
  determine_direction_too_small 10 (-20) ⟨50, 3/2⟩ (by norm_num)

/-- C4: at or above the magnitude threshold, horizontal dominance
(abs dx at least abs dy times the ratio) yields Right for positive dx and
Left otherwise; failing that, vertical dominance yields Down for positive
dy and Up otherwise. -/
theorem determine_direction_dominance (dx dy : ℚ) (thr : Threshold)
    (hmag : thr.px_min ≤ max |dx| |dy|) :
    (|dy| * thr.axisRatioVal ≤ |dx| →
        determine_direction dx dy thr =
          some (if 0 < dx then Direction.right else Direction.left)) ∧
    (¬ |dy| * thr.axisRatioVal ≤ |dx| → |dx| * thr.axisRatioVal ≤ |dy| →
        determine_direction dx dy thr =
          some (if 0 < dy then Direction.down else Direction.up)) := by
  constructor
  · intro h2
    unfold determine_direction
    rw [if_neg (not_lt.mpr hmag), if_pos h2]
  · intro h2 h3
    unfold determine_direction
    rw [if_neg (not_lt.mpr hmag), if_neg h2, if_pos h3]

/-- Witness for C4 at the three particular inputs of the claim:
classify(100, 0) is Right, classify(-100, 0) is Left and classify(0, 100)
is Down at threshold (50, 3/2). -/
theorem determine_direction_dominance_witness :
    determine_direction 100 0 ⟨50, 3/2⟩ = some Direction.right ∧
    determine_direction (-100) 0 ⟨50, 3/2⟩ = some Direction.left ∧
    determine_direction 0 100 ⟨50, 3/2⟩ = some Direction.down := by
  refine ⟨?_, ?_, ?_⟩
  · have h := (determine_direction_dominance 100 0 ⟨50, 3/2⟩ (by norm_num)).1 (by norm_num)
    rw [if_pos (by norm_num : (0 : ℚ) < 100)] at h
    exact h
  · have h := (determine_direction_dominance (-100) 0 ⟨50, 3/2⟩ (by norm_num)).1 (by norm_num)
    rw [if_neg (by norm_num : ¬ (0 : ℚ) < -100)] at h
    exact h
  · have h := (determine_direction_dominance 0 100 ⟨50, 3/2⟩ (by norm_num)).2 (by norm_num)
      (by norm_num)
    rw [if_pos (by norm_num : (0 : ℚ) < 100)] at h
    exact h

/-- C6: a displacement with equal axis magnitudes classifies as none for
every threshold with ratio strictly above 1 (and the positive minimum
magnitude every ThresholdConfig carries). -/
theorem determine_direction_diagonal_none (dx dy : ℚ) (thr : Threshold)
    (h : |dx| = |dy|) (hm : 0 < thr.px_min) (hr : 1 < thr.axisRatioVal) :
    determine_direction dx dy thr = none := by
  unfold determine_direction
  by_cases hlt : max |dx| |dy| < thr.px_min
  · rw [if_pos hlt]
  · have hmax : thr.px_min ≤ |dy| := by
      have h1 := not_lt.mp hlt
      rwa [h, max_self] at h1
    have hpos : 0 < |dy| := lt_of_lt_of_le hm hmax
    have h2 : ¬ |dy| * thr.axisRatioVal ≤ |dx| := by
      rw [h]
      intro hcon
      nlinarith [mul_lt_mul_of_pos_left hr hpos]
    have h3 : ¬ |dx| * thr.axisRatioVal ≤ |dy| := by
      rw [h]
      intro hcon
      nlinarith [mul_lt_mul_of_pos_left hr hpos]
    rw [if_neg hlt, if_neg h2, if_neg h3]

/-- Witness for C6 at the diagonal displacement (100, -100) with
threshold (50, 3/2). -/
theorem determine_direction_diagonal_none_witness :
    determine_direction 100 (-100) ⟨50, 3/2⟩ = none :=
  determine_direction_diagonal_none 100 (-100) ⟨50, 3/2⟩ (by norm_num) (by norm_num)
    (by norm_num)

/-- C2 fails on the code: the horizontal test is non-strict, so at ratio
exactly 1 a perfect diagonal already satisfies abs dx at least abs dy
times 1 and (100, 100) with px_min 50 classifies as Right, not none. -/
theorem ratio_one_diagonal_cex :
    determine_direction 100 100 ⟨50, 1⟩ = some Direction.right := by
  norm_num [determine_direction]

/-- C2 amended: at ratio exactly 1, a displacement with equal axis
magnitudes at or above the magnitude threshold resolves to the horizontal
axis — Right for positive dx, Left otherwise — never to none. -/
theorem ratio_one_diagonal_horizontal (dx dy : ℚ) (thr : Threshold)
    (h : |dx| = |dy|) (hm : thr.px_min ≤ max |dx| |dy|) (hr : thr.axisRatioVal = 1) :
    determine_direction dx dy thr =
      some (if 0 < dx then Direction.right else Direction.left) := by
  unfold determine_direction
  rw [if_neg (not_lt.mpr hm),
    if_pos (le_of_eq (by rw [hr, mul_one, h] : |dy| * thr.axisRatioVal = |dx|))]

/-- Witness for the amended C2 at the diagonal (-70, 70) with
threshold (50, 1), which resolves to Left. -/
theorem ratio_one_diagonal_horizontal_witness :
    determine_direction (-70) 70 ⟨50, 1⟩ = some Direction.left := by
  have h := ratio_one_diagonal_horizontal (-70) 70 ⟨50, 1⟩ (by norm_num) (by norm_num) rfl
  rw [if_neg (by norm_num : ¬ (0 : ℚ) < -70)] at h
  exact h

/-- C10: with a positive minimum magnitude and a ratio of at least 1,
whenever the classifier selects an axis the magnitude of the selected axis
itself meets the threshold and weakly dominates the other axis. -/
theorem determine_direction_selected_axis (dx dy : ℚ) (thr : Threshold)
    (hm : 0 < thr.px_min) (hr : 1 ≤ thr.axisRatioVal) :
    ((determine_direction dx dy thr = some Direction.right ∨
        determine_direction dx dy thr = some Direction.left) →
      thr.px_min ≤ |dx| ∧ |dy| ≤ |dx|) ∧
    ((determine_direction dx dy thr = some Direction.down ∨
        determine_direction dx dy thr = some Direction.up) →
      thr.px_min ≤ |dy| ∧ |dx| ≤ |dy|) := by
  unfold determine_direction
  split_ifs with h1 h2 hdx h3 hdy
  · exact ⟨fun hc => by rcases hc with hc | hc <;> simp at hc,
      fun hc => by rcases hc with hc | hc <;> simp at hc⟩
  · have hy : |dy| ≤ |dx| := le_trans (le_mul_of_one_le_right (abs_nonneg dy) hr) h2
    have hx : thr.px_min ≤ |dx| := by
      have h1g := not_lt.mp h1
      rwa [max_eq_left hy] at h1g
    exact ⟨fun _ => ⟨hx, hy⟩, fun hc => by rcases hc with hc | hc <;> simp at hc⟩
  · have hy : |dy| ≤ |dx| := le_trans (le_mul_of_one_le_right (abs_nonneg dy) hr) h2
    have hx : thr.px_min ≤ |dx| := by
      have h1g := not_lt.mp h1
      rwa [max_eq_left hy] at h1g
    exact ⟨fun _ => ⟨hx, hy⟩, fun hc => by rcases hc with hc | hc <;> simp at hc⟩
  · have hx : |dx| ≤ |dy| := le_trans (le_mul_of_one_le_right (abs_nonneg dx) hr) h3
    have hy : thr.px_min ≤ |dy| := by
      have h1g := not_lt.mp h1
      rwa [max_eq_right hx] at h1g
    exact ⟨fun hc => by rcases hc with hc | hc <;> simp at hc, fun _ => ⟨hy, hx⟩⟩
  · have hx : |dx| ≤ |dy| := le_trans (le_mul_of_one_le_right (abs_nonneg dx) hr) h3
    have hy : thr.px_min ≤ |dy| := by
      have h1g := not_lt.mp h1
      rwa [max_eq_right hx] at h1g
    exact ⟨fun hc => by rcases hc with hc | hc <;> simp at hc, fun _ => ⟨hy, hx⟩⟩
  · exact ⟨fun hc => by rcases hc with hc | hc <;> simp at hc,
      fun hc => by rcases hc with hc | hc <;> simp at hc⟩

/-- Witness for C10 at (100, 0) with threshold (50, 3/2): the classifier
selects Right and the horizontal magnitude meets both bounds. -/
theorem determine_direction_selected_axis_witness :
    determine_direction 100 0 ⟨50, 3/2⟩ = some Direction.right ∧
    (⟨50, 3/2⟩ : Threshold).px_min ≤ |(100 : ℚ)| ∧ |(0 : ℚ)| ≤ |(100 : ℚ)| := by
  have hd : determine_direction 100 0 ⟨50, 3/2⟩ = some Direction.right := by
    norm_num [determine_direction]
  have h := (determine_direction_selected_axis 100 0 ⟨50, 3/2⟩ (by norm_num) (by norm_num)).1
    (Or.inl hd)
  exact ⟨hd, h.1, h.2⟩

/-- C7: begin unconditionally activates the session, stores the new finger
count, zeroes both totals and discards any in-flight accumulation, from
every prior state; in particular begin(3) then begin(4) leaves an active
session with finger count 4 and totals (0, 0). -/
theorem begin_unconditional_reset (c : GestureCollector) (n : Nat) (t t2 : ℚ) :
    (c.begin n t).active = true ∧ (c.begin n t).fingers = n ∧
    (c.begin n t).total_dx = 0 ∧ (c.begin n t).total_dy = 0 ∧
    ((c.begin 3 t).begin 4 t2).active = true ∧
    ((c.begin 3 t).begin 4 t2).fingers = 4 ∧
    ((c.begin 3 t).begin 4 t2).total_dx = 0 ∧
    ((c.begin 3 t).begin 4 t2).total_dy = 0 :=
  ⟨rfl, rfl, rfl, rfl, rfl, rfl, rfl, rfl⟩

/-- C8: with no active session, update leaves the state unchanged, end
returns no result with the state unchanged and its loop iteration emits no
dispatch effect, and a begin after such a stray update still starts a
fresh, zeroed, active session. -/
theorem inactive_update_end_noop (c : GestureCollector) (h : c.active = false)
    (dx dy t : ℚ) (m n : Nat) (t2 : ℚ) (cfg : Config) (dr : Bool) :
    c.update dx dy t = c ∧
    GestureCollector.«end» c m = some (none, c) ∧
    processLine cfg dr t c (Line.swipeEnd m) = LineOutcome.ok c [] ∧
    ((c.update dx dy t).begin n t2).active = true ∧
    ((c.update dx dy t).begin n t2).fingers = n ∧
    ((c.update dx dy t).begin n t2).total_dx = 0 ∧
    ((c.update dx dy t).begin n t2).total_dy = 0 := by
  have he : GestureCollector.«end» c m = some (none, c) := by
    simp [GestureCollector.«end», h]
  refine ⟨by simp [GestureCollector.update, h], he, ?_, rfl, rfl, rfl, rfl⟩
  simp only [processLine]
  rw [he]

/-- Witness for C8 on the fresh collector: a stray update(5, 5) and a
stray end(3) are no-ops, and begin(4) afterwards starts a zeroed session. -/
theorem inactive_update_end_noop_witness :
    initCollector.update 5 5 0 = initCollector ∧
    GestureCollector.«end» initCollector 3 = some (none, initCollector) ∧
    processLine ⟨⟨50, 3/2⟩, []⟩ false 0 initCollector (Line.swipeEnd 3) =
      LineOutcome.ok initCollector [] ∧
    ((initCollector.update 5 5 0).begin 4 0).active = true ∧
    ((initCollector.update 5 5 0).begin 4 0).fingers = 4 ∧
    ((initCollector.update 5 5 0).begin 4 0).total_dx = 0 ∧
    ((initCollector.update 5 5 0).begin 4 0).total_dy = 0 :=
  inactive_update_end_noop initCollector rfl 5 5 0 3 4 0 ⟨⟨50, 3/2⟩, []⟩ false

/-- C3: at the end of begin(3); update(10,0); update(20,0) the session is
active with totals (30, 0), but end(3) never returns that snapshot: its
body, already holding self.lock, calls reset, which re-acquires the same
non-reentrant lock, so the call blocks forever (the none outcome); the
continuation past the blocking call would have returned (3, 30, 0) and
deactivated the session, as the claim states. -/
theorem collector_end_deadlock :
    (((initCollector.begin 3 0).update 10 0 0).update 20 0 0).active = true ∧
    GestureCollector.«end» (((initCollector.begin 3 0).update 10 0 0).update 20 0 0) 3 =
      none ∧
    GestureCollector.endUnlocked (((initCollector.begin 3 0).update 10 0 0).update 20 0 0) 3 =
      (some (3, 30, 0), resetState) := by
  refine ⟨rfl, rfl, ?_⟩
  norm_num [GestureCollector.endUnlocked, GestureCollector.begin, GestureCollector.update,
    initCollector, resetState]

/-- C9 fails on the code when a key is present but mapped to the empty
string: for the finalized gesture (3, Left), the key 3_left is present in
the mapping, yet the daemon reports no mapping and spawns nothing, because
the truthiness test on the command is false for the empty string. -/
theorem dispatch_present_empty_cmd_cex :
    List.lookup "3_left" [("3_left", "")] = some "" ∧
    dispatchGesture ⟨⟨50, 3/2⟩, [("3_left", "")]⟩ false 3 (-100) 0 =
      [Ev.printedDetected "3_left", Ev.printedNoMapping "3_left"] := by
  have hdir : determine_direction (-100) 0
      (⟨⟨50, 3/2⟩, [("3_left", "")]⟩ : Config).threshold = some Direction.left := by
    norm_num [determine_direction]
  refine ⟨by decide, ?_⟩
  unfold dispatchGesture
  rw [hdir]
  decide

/-- C9 amended: for a finalized gesture, a none direction is reported as
too small with no lookup and no action; a classified direction whose key
is present with a non-empty command spawns that command exactly once; a
missing key reports no mapping and spawns nothing (a key mapped to the
empty string is likewise reported as no mapping). -/
theorem dispatch_outcomes (cfg : Config) (f : Nat) (dx dy : ℚ) (d : Direction) (cmd : String) :
    (determine_direction dx dy cfg.threshold = none →
        dispatchGesture cfg false f dx dy = [Ev.printedTooSmall f]) ∧
    (determine_direction dx dy cfg.threshold = some d →
        (List.lookup (toString f ++ "_" ++ d.str) cfg.gestures = some cmd → ¬ cmd = "" →
            dispatchGesture cfg false f dx dy =
              [Ev.printedDetected (toString f ++ "_" ++ d.str), Ev.spawned cmd]) ∧
        (List.lookup (toString f ++ "_" ++ d.str) cfg.gestures = none →
            dispatchGesture cfg false f dx dy =
              [Ev.printedDetected (toString f ++ "_" ++ d.str),
                Ev.printedNoMapping (toString f ++ "_" ++ d.str)])) := by
  refine ⟨fun h => ?_, fun h => ⟨fun hl hne => ?_, fun hl => ?_⟩⟩
  · unfold dispatchGesture
    rw [h]
  · unfold dispatchGesture
    rw [h]
    simp [hl, hne, execute_action]
  · unfold dispatchGesture
    rw [h]
    simp [hl]

/-- Witness for the amended C9 with mapping 3_left to cmd-A: the gesture
(3, Left) spawns cmd-A exactly once, (3, Right) reports no mapping and
spawns nothing, and a too-small displacement is only reported. -/
theorem dispatch_outcomes_witness :
    dispatchGesture ⟨⟨50, 3/2⟩, [("3_left", "cmd-A")]⟩ false 3 (-100) 0 =
      [Ev.printedDetected "3_left", Ev.spawned "cmd-A"] ∧
    dispatchGesture ⟨⟨50, 3/2⟩, [("3_left", "cmd-A")]⟩ false 3 100 0 =
      [Ev.printedDetected "3_right", Ev.printedNoMapping "3_right"] ∧
    dispatchGesture ⟨⟨50, 3/2⟩, [("3_left", "cmd-A")]⟩ false 3 10 0 =
      [Ev.printedTooSmall 3] := by
  refine ⟨?_, ?_, ?_⟩
  · have h := ((dispatch_outcomes ⟨⟨50, 3/2⟩, [("3_left", "cmd-A")]⟩ 3 (-100) 0 Direction.left
        "cmd-A").2 (by norm_num [determine_direction])).1 (by decide) (by decide)
    exact h.trans (by decide)
  · have h := ((dispatch_outcomes ⟨⟨50, 3/2⟩, [("3_left", "cmd-A")]⟩ 3 100 0 Direction.right
        "cmd-A").2 (by norm_num [determine_direction])).2 (by decide)
    exact h.trans (by decide)
  · exact (dispatch_outcomes ⟨⟨50, 3/2⟩, [("3_left", "cmd-A")]⟩ 3 10 0 Direction.left "x").1
      (by norm_num [determine_direction])

/-- C1 fails on the code: an update-shaped line whose captured delta field
1.2.3 is in the captured character class but is not a valid float makes
float() raise ValueError; the exception escapes the read loop, so the
following gesture-begin line is never processed and the run loop ends
through the outer handler. -/
theorem malformed_update_fatal_cex :
    isDeltaToken "1.2.3" = true ∧ pyFloat "1.2.3" = none ∧
    runLoop ⟨⟨50, 3/2⟩, []⟩ false 0 initCollector
        [Line.swipeUpdate "1.2.3" "4", Line.swipeBegin 3] =
      (initCollector, [], RunOutcome.errored) := by
  refine ⟨by decide, by decide, ?_⟩
  decide

/-- C1 amended: a malformed captured delta field on an update-shaped line
is fatal rather than local: the read loop stops at that line with the
errored outcome, the collector is untouched, no effect is emitted, and all
subsequent lines are left unprocessed. -/
theorem malformed_update_fatal (cfg : Config) (dr : Bool) (t : ℚ)
    (c : GestureCollector) (g1 g2 : String) (ls : List Line)
    (h : pyFloat g1 = none ∨ pyFloat g2 = none) :
    runLoop cfg dr t c (Line.swipeUpdate g1 g2 :: ls) = (c, [], RunOutcome.errored) := by
  have hp : processLine cfg dr t c (Line.swipeUpdate g1 g2) = LineOutcome.raised := by
    simp only [processLine]
    rcases h with h | h
    · rw [h]
    · cases hg : pyFloat g1 with
      | none => rfl
      | some dx => rw [h]
  simp only [runLoop]
  rw [hp]

/-- Witness for the amended C1: the captured field consisting of a bare
minus sign is malformed, and the loop stops with the errored outcome
before the following gesture-begin line. -/
theorem malformed_update_fatal_witness :
    pyFloat "-" = none ∧
    runLoop ⟨⟨50, 3/2⟩, []⟩ false 0 initCollector
        [Line.swipeUpdate "-" "0", Line.swipeBegin 4] =
      (initCollector, [], RunOutcome.errored) :=
  ⟨by decide, malformed_update_fatal ⟨⟨50, 3/2⟩, []⟩ false 0 initCollector "-" "0"
      [Line.swipeBegin 4] (Or.inl (by decide))⟩
